import Mathlib

/-!
Shallow embedding of the DD-MVP fusion-and-ethical-gating core
(`src/slmu.py`, `src/callosum.py`, `src/soul.py`, `src/vector_store.py`)
with proofs of the specification's testable properties.

Conventions: Python floats are modelled as `ℚ` where the code only does
field arithmetic and clipping, and as `ℝ` where the code takes square
roots (Euclidean norms).  Python dicts keyed by strings are modelled as
association lists; `dict.get(k, d)` becomes `(List.lookup k l).getD d`.
`np.clip(x, lo, hi)` is `min (max x lo) hi`.  A missing/`None` value is
`Option.none`.  Randomness (`np.random.random(7)`) and wall-clock time
(`datetime.utcnow()`) are passed in as explicit parameters.
-/

namespace DD

/-! ### SLMU policy engine (`src/slmu.py`) -/

/-- An extracted concept as consumed by `check_compliance_enhanced`
(fields `name` and `lemma` of the concept dicts; `lemma` is a Lean
keyword, hence the trailing underscore). -/
structure Concept where
  name : String
  lemma_ : String
deriving DecidableEq

/-- A subject–predicate–object relationship record. -/
structure Relationship where
  subject : String
  predicate : String
  predicate_lemma : String
  object : String
deriving DecidableEq

/-- One pattern match coming from the spaCy matcher (`{'text': …, 'lemma': …}`). -/
structure PatternMatch where
  text : String
  lemma_ : String
deriving DecidableEq

/-- The `ethical_matches` argument: harm / ethical / command pattern lists. -/
structure EthicalMatches where
  harm_patterns : List PatternMatch
  ethical_patterns : List PatternMatch
  command_patterns : List PatternMatch
deriving DecidableEq

/-- The sentiment dict produced by Chroma and handed to the checker as
`emotions` (fields the core reads: confidence `score`, and the
`all_scores` mapping emotion → score). -/
structure Sentiment where
  score : Option ℚ
  all_scores : List (String × ℚ)
deriving DecidableEq

/-- The `emotion_validation` section of the rule set. -/
structure EmotionValidation where
  warning_thresholds : List (String × ℚ)
deriving DecidableEq

/-- The SLMU rule set (the fields `check_compliance_enhanced` reads). -/
structure Rules where
  prohibited_concepts : List String
  required_virtues : List String
  emotion_validation : Option EmotionValidation
deriving DecidableEq

/-- `get_default_rules()` from `slmu.py` (the fields the checker uses;
the default rules carry no `emotion_validation` key). -/
def get_default_rules : Rules :=
  { prohibited_concepts := ["violence", "harm", "deception", "theft", "abuse"]
    required_virtues := ["temperance", "prudence", "justice", "fortitude"]
    emotion_validation := none }

/-- A violation record appended by `check_compliance_enhanced`; one
constructor per dict shape the code builds (all have severity `high`). -/
inductive Violation where
  | prohibited_concept_lemma (concept : String) (lemma_ : String) (matched_rule : String)
  | prohibited_relationship (subject predicate predicate_lemma object matched_rule : String)
  | harm_pattern_detected (text : String) (lemma_ : String)
deriving DecidableEq

/-- A warning record (severity `medium`). -/
inductive Warning where
  | emotion_threshold_exceeded (emotion : String) (score threshold : ℚ)
  | excessive_commands (count : Nat)
deriving DecidableEq

/-- Python's `str.lower()`, modelled character-wise on the string's data
(Lean's `String.toLower` is extensionally the same but does not reduce in
the kernel, so concrete instances could not be checked with it). -/
def pyLower (s : String) : String := String.mk (s.data.map Char.toLower)

/-- Python's slice `s[:n]`. -/
def pyTake (s : String) (n : Nat) : String := String.mk (s.data.take n)

/-- Python's `len(s)` (number of characters). -/
def pyLen (s : String) : Nat := s.data.length

/-- Python's substring test `needle in hay`. -/
def strContains (hay needle : String) : Bool :=
  decide (needle.data <:+: hay.data)

/-- The exact-or-root prohibited-lemma test shared by the concept loop and
the relationship loop of `check_compliance_enhanced`: exact equality, else
if both strings have length ≥ 5, `root_len = min(len, len) - 3`, and a
match of the first `root_len` characters with `root_len ≥ 4`. Both
arguments are already lowercased by the caller. -/
def lemma_matches_prohibited (lemma_ prohibited_lower : String) : Bool :=
  if lemma_ == prohibited_lower then true
  else if 5 ≤ pyLen lemma_ && 5 ≤ pyLen prohibited_lower then
    let root_len := min (pyLen lemma_) (pyLen prohibited_lower) - 3
    decide (4 ≤ root_len) && (pyTake lemma_ root_len == pyTake prohibited_lower root_len)
  else false

/-- Step 1 of `check_compliance_enhanced` for a single concept: skip
lemmas shorter than 3 characters, else emit one
`prohibited_concept_lemma` violation per matching prohibited concept. -/
def concept_violations_for (c : Concept) (prohibited_concepts : List String) : List Violation :=
  let lemma_ := pyLower c.lemma_
  if pyLen lemma_ < 3 then []
  else prohibited_concepts.filterMap fun prohibited =>
    if lemma_matches_prohibited lemma_ (pyLower prohibited) then
      some (.prohibited_concept_lemma c.name lemma_ prohibited)
    else none

/-- Step 2 of `check_compliance_enhanced` for a single relationship:
identical logic applied to the predicate lemma. -/
def relationship_violations_for (r : Relationship) (prohibited_concepts : List String) :
    List Violation :=
  let predicate_lemma := pyLower r.predicate_lemma
  if pyLen predicate_lemma < 3 then []
  else prohibited_concepts.filterMap fun prohibited =>
    if lemma_matches_prohibited predicate_lemma (pyLower prohibited) then
      some (.prohibited_relationship r.subject r.predicate predicate_lemma r.object prohibited)
    else none

/-- Step 3: every harm-pattern match is unconditionally a violation. -/
def harm_violations (harm_patterns : List PatternMatch) : List Violation :=
  harm_patterns.map fun h => .harm_pattern_detected h.text h.lemma_

/-- Step 4: a virtue is present if it occurs in the lowercased text, as a
substring of a concept name, or equals a concept lemma. -/
def required_virtues_present (text : String) (concepts : List Concept)
    (required_virtues : List String) : List String :=
  let concept_lemmas := concepts.map fun c => pyLower c.lemma_
  let text_lower := pyLower text
  required_virtues.filter fun virtue =>
    let virtue_lower := pyLower virtue
    strContains text_lower virtue_lower ||
    concepts.any (fun c => strContains (pyLower c.name) virtue_lower) ||
    concept_lemmas.contains virtue_lower

/-- `_check_emotion_thresholds`: a warning for each configured emotion
whose score strictly exceeds its threshold (missing scores default 0). -/
def check_emotion_thresholds (emotions : Sentiment) (emotion_rules : EmotionValidation) :
    List Warning :=
  emotion_rules.warning_thresholds.filterMap fun p =>
    let score := (emotions.all_scores.lookup p.1).getD 0
    if score > p.2 then some (.emotion_threshold_exceeded p.1 score p.2) else none

/-- The result dict of `check_compliance_enhanced`. -/
structure ComplianceResult where
  compliant : Bool
  violations : List Violation
  warnings : List Warning
  required_values_present : List String
  ethical_patterns_found : Nat
  harm_patterns_found : Nat
  command_patterns_found : Nat
deriving DecidableEq

/-- `check_compliance_enhanced` from `slmu.py`: accumulate concept,
relationship and harm-pattern violations, collect virtues, emit emotion
and excessive-command warnings, and set `compliant = (len(violations) == 0)`.
`rules = None` falls back to `get_default_rules()`. -/
def check_compliance_enhanced (text : String) (concepts : List Concept)
    (relationships : List Relationship) (ethical_matches : EthicalMatches)
    (emotions : Option Sentiment) (rules : Option Rules) : ComplianceResult :=
  let rules := rules.getD get_default_rules
  let violations :=
    (concepts.flatMap fun c => concept_violations_for c rules.prohibited_concepts) ++
    (relationships.flatMap fun r => relationship_violations_for r rules.prohibited_concepts) ++
    harm_violations ethical_matches.harm_patterns
  let warnings :=
    (match emotions, rules.emotion_validation with
      | some em, some ev => check_emotion_thresholds em ev
      | _, _ => []) ++
    (if ethical_matches.command_patterns.length > 3 then
      [Warning.excessive_commands ethical_matches.command_patterns.length]
    else [])
  { compliant := violations.length == 0
    violations := violations
    warnings := warnings
    required_values_present :=
      required_virtues_present text concepts rules.required_virtues
    ethical_patterns_found := ethical_matches.ethical_patterns.length
    harm_patterns_found := ethical_matches.harm_patterns.length
    command_patterns_found := ethical_matches.command_patterns.length }

/-! ### Corpus Callosum: fusion and arbitration (`src/callosum.py`) -/

/-- `np.clip(x, lo, hi)` on scalars. -/
def np_clip {α : Type} [LinearOrder α] (x lo hi : α) : α := min (max x lo) hi

/-- The per-triad fusion weights (`self.weights`). -/
structure Weights where
  chroma : ℚ
  prismo : ℚ
  anchor : ℚ
deriving DecidableEq

/-- The default weights installed by `CorpusCallosum.__init__`. -/
def default_weights : Weights := { chroma := 0.33, prismo := 0.34, anchor := 0.33 }

/-- An entity record passed through by fusion. -/
structure Entity where
  text : String
  label : String
  lemma_ : String
deriving DecidableEq

/-- The `linguistic_features` sub-dict read by coherence scoring;
`none` models an absent or empty (falsy) dict. -/
structure LinguisticFeatures where
  token_count : Nat
  pos_distribution : List (String × Nat)
deriving DecidableEq

/-- The fields of `chroma_output` the fusion layer reads. -/
structure ChromaOutput where
  sentiment : Option Sentiment
  vector_id : Option String
  embedding_dim : Nat
  similar_memories : List String
deriving DecidableEq

/-- The fields of `prismo_output` the fusion layer reads
(`ethical_patterns` absent is modelled as all-empty lists). -/
structure PrismoOutput where
  text : String
  concepts : List Concept
  relationships : List Relationship
  ethical_patterns : EthicalMatches
  entities : List Entity
  linguistic_features : Option LinguisticFeatures
  concept_count : Nat
  entity_count : Nat
  sentence_count : Nat
deriving DecidableEq

/-- The fields of `anchor_output` the fusion layer reads. -/
structure AnchorOutput where
  response : String
  interaction_logged : Bool
  interaction_count : Nat
deriving DecidableEq

/-- `CorpusCallosum._calculate_coherence`: chroma sub-score = sentiment
confidence (default 0.5); prismo sub-score = 0.5·richness + 0.5·concept
density with `richness = min(1, (token_count/20)·(pos_diversity/5))` and
density `min(1, (concepts+entities)/10)`; anchor sub-score = 1.0 if
logged else 0.5; weighted sum divided by the weight total, then
`np.clip(·, 0, 1)`. -/
def calculate_coherence (weights : Weights) (chroma : ChromaOutput)
    (prismo : PrismoOutput) (anchor : AnchorOutput) : ℚ :=
  let sentiment_score : ℚ :=
    match chroma.sentiment with
    | some s => s.score.getD 0.5
    | none => 0.5
  let chroma_score := sentiment_score
  let richness_score : ℚ :=
    match prismo.linguistic_features with
    | some l =>
        min 1 (((l.token_count : ℚ) / 20) * ((l.pos_distribution.length : ℚ) / 5))
    | none => 0.5
  let concept_score : ℚ := min 1 (((prismo.concept_count : ℚ) + (prismo.entity_count : ℚ)) / 10)
  let prismo_score := richness_score * 0.5 + concept_score * 0.5
  let anchor_score : ℚ := if anchor.interaction_logged then 1 else 0.5
  let scores := [chroma_score * weights.chroma, prismo_score * weights.prismo,
    anchor_score * weights.anchor]
  let total_weight := weights.chroma + weights.prismo + weights.anchor
  let coherence := scores.sum / total_weight
  np_clip coherence 0 1

/-- The compliance result as the fusion gate sees it: a dict whose keys
may in principle be absent, probed with `slmu_result.get('compliant',
False)`, `.get('violations', [])` and `.get('warnings', [])`. -/
structure SlmuDict where
  compliant : Option Bool
  violations : Option (List Violation)
  warnings : Option (List Warning)
deriving DecidableEq

/-- View of a `ComplianceResult` as the dict the gate probes (the
checker always populates all three keys). -/
def ComplianceResult.toDict (r : ComplianceResult) : SlmuDict :=
  { compliant := some r.compliant, violations := some r.violations, warnings := some r.warnings }

/-- The per-source summary counts assembled into `triad_outputs`. -/
structure TriadOutputs where
  chroma_vector_id : Option String
  chroma_embedding_dim : Nat
  chroma_similar_count : Nat
  prismo_concept_count : Nat
  prismo_entity_count : Nat
  prismo_sentence_count : Nat
  anchor_interaction_count : Nat
deriving DecidableEq

/-- The two result shapes `CorpusCallosum.fuse` can return: the
rejection dict `{success: False, reason, details, coherence: 0.0}` and
the full fused-response dict (`success: True`). -/
inductive FuseResult where
  | rejected (reason : String) (violations : List Violation) (warnings : List Warning)
  | fused (coherence : ℚ) (sentiment : Option Sentiment) (concepts : List Concept)
      (entities : List Entity) (relationships : List Relationship)
      (linguistic_features : Option LinguisticFeatures) (ethical_patterns : EthicalMatches)
      (slmu_compliance : SlmuDict) (response : String) (weights_used : Weights)
      (triad_outputs : TriadOutputs)
deriving DecidableEq

/-- The `success` field of the returned dict. -/
def FuseResult.success : FuseResult → Bool
  | .rejected .. => false
  | .fused .. => true

/-- The `coherence` field of the returned dict (`0.0` in the rejection dict). -/
def FuseResult.coherence : FuseResult → ℚ
  | .rejected .. => 0
  | .fused c _ _ _ _ _ _ _ _ _ _ => c

/-- The gate-and-assemble tail of `CorpusCallosum.fuse`, abstracted over
the compliance dict it probes: reject with reason `"Ethical violation"`
unless `slmu_result.get('compliant', False)` is truthy, else score
coherence and assemble the fused response. -/
def fuse_gate (weights : Weights) (slmu_result : SlmuDict) (chroma_output : ChromaOutput)
    (prismo_output : PrismoOutput) (anchor_output : AnchorOutput) : FuseResult :=
  if !(slmu_result.compliant.getD false) then
    .rejected "Ethical violation" (slmu_result.violations.getD [])
      (slmu_result.warnings.getD [])
  else
    .fused (calculate_coherence weights chroma_output prismo_output anchor_output)
      chroma_output.sentiment prismo_output.concepts prismo_output.entities
      prismo_output.relationships prismo_output.linguistic_features
      prismo_output.ethical_patterns slmu_result anchor_output.response weights
      { chroma_vector_id := chroma_output.vector_id
        chroma_embedding_dim := chroma_output.embedding_dim
        chroma_similar_count := chroma_output.similar_memories.length
        prismo_concept_count := prismo_output.concept_count
        prismo_entity_count := prismo_output.entity_count
        prismo_sentence_count := prismo_output.sentence_count
        anchor_interaction_count := anchor_output.interaction_count }

/-- `CorpusCallosum.fuse`: run `check_compliance_enhanced` on Prismo's
text/concepts/relationships/patterns with Chroma's sentiment as the
emotion context and the loaded rules, then gate and assemble. -/
def fuse (weights : Weights) (slmu_rules : Rules) (chroma_output : ChromaOutput)
    (prismo_output : PrismoOutput) (anchor_output : AnchorOutput) : FuseResult :=
  let slmu_result := check_compliance_enhanced prismo_output.text prismo_output.concepts
    prismo_output.relationships prismo_output.ethical_patterns chroma_output.sentiment
    (some slmu_rules)
  fuse_gate weights slmu_result.toDict chroma_output prismo_output anchor_output

/-- The `performance_feedback` mapping: an optional delta per source. -/
structure Feedback where
  chroma : Option ℚ
  prismo : Option ℚ
  anchor : Option ℚ
deriving DecidableEq

/-- One iteration of the `update_weights` loop body for a single triad:
if the triad is present in the feedback, add `delta * 0.05` and
`np.clip` to `[0.1, 0.6]`; otherwise leave the weight alone. -/
def step_weight (current : ℚ) (feedback : Option ℚ) : ℚ :=
  match feedback with
  | some delta => np_clip (current + delta * 0.05) 0.1 0.6
  | none => current

/-- `CorpusCallosum.update_weights`: clip-adjust each weight named in
the feedback, then renormalize all three by their sum. -/
def update_weights (weights : Weights) (performance_feedback : Feedback) : Weights :=
  let adjusted : Weights :=
    { chroma := step_weight weights.chroma performance_feedback.chroma
      prismo := step_weight weights.prismo performance_feedback.prismo
      anchor := step_weight weights.anchor performance_feedback.anchor }
  let total := adjusted.chroma + adjusted.prismo + adjusted.anchor
  { chroma := adjusted.chroma / total
    prismo := adjusted.prismo / total
    anchor := adjusted.anchor / total }

/-! ### Soul state manager (`src/soul.py`)

Vectors are 7-dimensional real vectors (`np.random.random(7)` /
`chroma_vector`); `np.linalg.norm` is the Euclidean norm, so this part
of the embedding lives in `ℝ`.  The RNG draw and the `utcnow()`
timestamp are explicit parameters. -/

/-- A 7-dimensional float vector ("7D ROYGBIV"). -/
abbrev Vec7 := Fin 7 → ℝ

/-- `np.linalg.norm v` for an `n`-dimensional vector. -/
noncomputable def euclid_norm {n : Nat} (v : Fin n → ℝ) : ℝ := Real.sqrt (∑ i, v i ^ 2)

/-- One per-user soul record, as stored in `self.souls[user_id]`. -/
structure SoulRecord where
  user_id : String
  vector : Vec7
  alignment_score : ℝ
  interaction_count : Nat
  preferences : List (String × String)
  created_at : String
  last_updated : String

/-- The `self.souls` dict, as an association list keyed by user id. -/
abbrev SoulState := List (String × SoulRecord)

/-- Replace the binding of `k` in an association list (the in-place
mutation of a dict entry). -/
def assoc_set {β : Type} (l : List (String × β)) (k : String) (v : β) : List (String × β) :=
  l.map fun p => if p.1 == k then (k, v) else p

namespace Soul

/-- `Soul.get_or_create`: if `user_id` is absent, insert a fresh record
with the raw random draw as its vector (`np.random.random(7)`, NOT
normalized), alignment 0.5, zero interactions; return the stored record
and the resulting state. -/
noncomputable def get_or_create (souls : SoulState) (user_id : String) (rand : Vec7)
    (now : String) : SoulRecord × SoulState :=
  match souls.lookup user_id with
  | some s => (s, souls)
  | none =>
    let s : SoulRecord :=
      { user_id := user_id, vector := rand, alignment_score := 0.5, interaction_count := 0
        preferences := [], created_at := now, last_updated := now }
    (s, souls ++ [(user_id, s)])

/-- `Soul.update`: EMA the vector (`0.9·old + 0.1·chroma_vector`),
divide by its Euclidean norm, EMA-and-clip the alignment score,
increment the interaction count, and store the mutated record. -/
noncomputable def update (souls : SoulState) (user_id : String) (chroma_vector : Vec7)
    (coherence : ℝ) (rand : Vec7) (now : String) : SoulRecord × SoulState :=
  let soul := (get_or_create souls user_id rand now).1
  let souls1 := (get_or_create souls user_id rand now).2
  let new_vector0 : Vec7 := fun i => 0.9 * soul.vector i + 0.1 * chroma_vector i
  let new_vector : Vec7 := fun i => new_vector0 i / euclid_norm new_vector0
  let new_alignment := 0.9 * soul.alignment_score + 0.1 * coherence
  let soul' : SoulRecord :=
    { soul with
      vector := new_vector
      alignment_score := np_clip new_alignment 0 1
      interaction_count := soul.interaction_count + 1
      last_updated := now }
  (soul', assoc_set souls1 user_id soul')

end Soul

/-! ### Vector store (`src/vector_store.py`)

The store keeps two dicts, id → vector and id → metadata, modelled as
association lists; the metadata type is a parameter with a default
element standing for Python's `{}` fallback. -/

/-- Python dict assignment `d[k] = v` on an association list: replace
the existing binding if the key is present, else append. -/
def dict_set {β : Type} (l : List (String × β)) (k : String) (v : β) : List (String × β) :=
  if (l.lookup k).isSome then assoc_set l k v else l ++ [(k, v)]

/-- The state of a `SimpleVectorStore` holding `n`-dimensional vectors
with metadata of type `M`. -/
structure VectorStoreState (n : Nat) (M : Type) where
  vectors : List (String × (Fin n → ℝ))
  metadata : List (String × M)

/-- The record returned by `SimpleVectorStore.get`. -/
structure VectorRecord (n : Nat) (M : Type) where
  id : String
  vector : Fin n → ℝ
  metadata : M

/-- One entry of a `search` result list. -/
structure SearchHit (M : Type) where
  id : String
  similarity : ℝ
  metadata : M

/-- The cosine similarity computed inside `search`:
`np.dot(q, v) / (norm(q) * norm(v))`. -/
noncomputable def cosine_similarity {n : Nat} (query v : Fin n → ℝ) : ℝ :=
  (∑ i, query i * v i) / (euclid_norm query * euclid_norm v)

/-- The descending-similarity comparison used to sort search results. -/
abbrev hit_ge {M : Type} (a b : SearchHit M) : Prop := b.similarity ≤ a.similarity

noncomputable instance {M : Type} : DecidableRel (hit_ge (M := M)) :=
  fun a b => Real.decidableLE b.similarity a.similarity

instance {M : Type} : IsTotal (SearchHit M) hit_ge :=
  ⟨fun a b => le_total b.similarity a.similarity⟩

instance {M : Type} : IsTrans (SearchHit M) hit_ge :=
  ⟨fun _ _ _ hab hbc => le_trans hbc hab⟩

namespace SimpleVectorStore

variable {n : Nat} {M : Type}

/-- `SimpleVectorStore.upsert`: wholesale replacement of vector and
metadata under the id. -/
def upsert (s : VectorStoreState n M) (id : String) (vector : Fin n → ℝ) (metadata : M) :
    VectorStoreState n M :=
  { vectors := dict_set s.vectors id vector, metadata := dict_set s.metadata id metadata }

/-- `SimpleVectorStore.get`: the stored record, with `{}` (here
`default`) as metadata fallback. -/
def get [Inhabited M] (s : VectorStoreState n M) (id : String) : Option (VectorRecord n M) :=
  match s.vectors.lookup id with
  | some v => some { id := id, vector := v, metadata := (s.metadata.lookup id).getD default }
  | none => none

/-- `SimpleVectorStore.count`. -/
def count (s : VectorStoreState n M) : Nat := s.vectors.length

/-- `SimpleVectorStore.search`: cosine similarity of the query against
every stored vector, sorted descending, truncated to `k`. -/
noncomputable def search [Inhabited M] (s : VectorStoreState n M) (query_vector : Fin n → ℝ)
    (k : Nat) : List (SearchHit M) :=
  if s.vectors.length = 0 then []
  else
    let similarities := s.vectors.map fun p =>
      { id := p.1, similarity := cosine_similarity query_vector p.2
        metadata := (s.metadata.lookup p.1).getD default : SearchHit M }
    (similarities.insertionSort hit_ge).take k

end SimpleVectorStore

/-! ### Theorems -/

/-- C1: for every input to the Compliance Engine's
`check_compliance_enhanced`, the returned result satisfies
`compliant == (violations is empty)`. -/
theorem compliant_iff_no_violations (text : String) (concepts : List Concept)
    (relationships : List Relationship) (ethical_matches : EthicalMatches)
    (emotions : Option Sentiment) (rules : Option Rules) :
    (check_compliance_enhanced text concepts relationships ethical_matches emotions
        rules).compliant = true ↔
    (check_compliance_enhanced text concepts relationships ethical_matches emotions
        rules).violations = [] := by
  have h : ∀ (l : List Violation), ((l.length == 0) = true ↔ l = []) := by
    intro l; cases l <;> simp
  exact h _

/-- C7: for any (finite) sub-score inputs — and any weights with
positive total, the component's invariant — the coherence score
returned by `calculate_coherence` lies in `[0, 1]`: the final `np.clip`
bounds the result, so no out-of-range intermediate value reaches the
returned score. -/
theorem coherence_in_unit_interval (weights : Weights) (chroma : ChromaOutput)
    (prismo : PrismoOutput) (anchor : AnchorOutput)
    (_hw : 0 < weights.chroma + weights.prismo + weights.anchor) :
    0 ≤ calculate_coherence weights chroma prismo anchor ∧
    calculate_coherence weights chroma prismo anchor ≤ 1 := by
  unfold calculate_coherence np_clip
  exact ⟨le_min (le_max_right _ _) zero_le_one, min_le_right _ _⟩

/-- Witness for C7 at the default weights and minimal triad outputs. -/
theorem coherence_in_unit_interval_witness :
    0 ≤ calculate_coherence default_weights ⟨none, none, 0, []⟩
        ⟨"", [], [], ⟨[], [], []⟩, [], none, 0, 0, 0⟩ ⟨"", false, 0⟩ ∧
    calculate_coherence default_weights ⟨none, none, 0, []⟩
        ⟨"", [], [], ⟨[], [], []⟩, [], none, 0, 0, 0⟩ ⟨"", false, 0⟩ ≤ 1 :=
  coherence_in_unit_interval default_weights ⟨none, none, 0, []⟩
    ⟨"", [], [], ⟨[], [], []⟩, [], none, 0, 0, 0⟩ ⟨"", false, 0⟩
    (by norm_num [default_weights])

/-- C10: the fusion gate is fail-closed on the compliance flag — it
returns a success result iff the compliance dict explicitly contains
`compliant == True`, and a dict missing the `compliant` key entirely is
rejected like a non-compliant one. -/
theorem fuse_gate_fail_closed :
    (∀ (weights : Weights) (slmu : SlmuDict) (chroma : ChromaOutput)
        (prismo : PrismoOutput) (anchor : AnchorOutput),
      (fuse_gate weights slmu chroma prismo anchor).success = true ↔
        slmu.compliant = some true)
    ∧ (∀ (weights : Weights) (slmu : SlmuDict) (chroma : ChromaOutput)
        (prismo : PrismoOutput) (anchor : AnchorOutput),
      slmu.compliant = none →
      fuse_gate weights slmu chroma prismo anchor =
        .rejected "Ethical violation" (slmu.violations.getD []) (slmu.warnings.getD [])) := by
  constructor
  · intro weights slmu chroma prismo anchor
    rcases slmu with ⟨c, v, w⟩
    rcases c with _ | b
    · simp [fuse_gate, FuseResult.success]
    · cases b <;> simp [fuse_gate, FuseResult.success]
  · intro weights slmu chroma prismo anchor h
    simp [fuse_gate, h]

/-- Witness for C10 at a concrete compliance dict with the
`compliant` key absent. -/
theorem fuse_gate_fail_closed_witness :
    fuse_gate default_weights ⟨none, some [], some []⟩
      ⟨none, none, 0, []⟩
      ⟨"", [], [], ⟨[], [], []⟩, [], none, 0, 0, 0⟩
      ⟨"", false, 0⟩ = .rejected "Ethical violation" [] [] :=
  fuse_gate_fail_closed.2 _ _ _ _ _ rfl

/-- C2: whenever the compliance check reports non-compliant, `fuse`
returns the rejection dict with `success=False`, reason
`"Ethical violation"`, the violations and warnings as details, and
coherence `0.0`; the result is the `rejected` shape, so no coherence
score is computed. -/
theorem fuse_rejects_noncompliant (weights : Weights) (slmu_rules : Rules)
    (chroma : ChromaOutput) (prismo : PrismoOutput) (anchor : AnchorOutput)
    (h : (check_compliance_enhanced prismo.text prismo.concepts prismo.relationships
        prismo.ethical_patterns chroma.sentiment (some slmu_rules)).compliant = false) :
    fuse weights slmu_rules chroma prismo anchor =
      .rejected "Ethical violation"
        (check_compliance_enhanced prismo.text prismo.concepts prismo.relationships
          prismo.ethical_patterns chroma.sentiment (some slmu_rules)).violations
        (check_compliance_enhanced prismo.text prismo.concepts prismo.relationships
          prismo.ethical_patterns chroma.sentiment (some slmu_rules)).warnings
    ∧ (fuse weights slmu_rules chroma prismo anchor).success = false
    ∧ (fuse weights slmu_rules chroma prismo anchor).coherence = 0 := by
  have hf : fuse weights slmu_rules chroma prismo anchor =
      .rejected "Ethical violation"
        (check_compliance_enhanced prismo.text prismo.concepts prismo.relationships
          prismo.ethical_patterns chroma.sentiment (some slmu_rules)).violations
        (check_compliance_enhanced prismo.text prismo.concepts prismo.relationships
          prismo.ethical_patterns chroma.sentiment (some slmu_rules)).warnings := by
    unfold fuse fuse_gate
    simp [ComplianceResult.toDict, h]
  exact ⟨hf, by rw [hf]; rfl, by rw [hf]; rfl⟩

/-- Witness for C2 at a concrete prohibited-concept input
("violence" against the default rules). -/
theorem fuse_rejects_noncompliant_witness :
    fuse default_weights get_default_rules ⟨none, none, 0, []⟩
      ⟨"I want violence", [⟨"violence", "violence"⟩], [], ⟨[], [], []⟩, [], none, 1, 0, 1⟩
      ⟨"", false, 0⟩ =
      .rejected "Ethical violation"
        (check_compliance_enhanced "I want violence" [⟨"violence", "violence"⟩] []
          ⟨[], [], []⟩ none (some get_default_rules)).violations
        (check_compliance_enhanced "I want violence" [⟨"violence", "violence"⟩] []
          ⟨[], [], []⟩ none (some get_default_rules)).warnings
    ∧ (fuse default_weights get_default_rules ⟨none, none, 0, []⟩
        ⟨"I want violence", [⟨"violence", "violence"⟩], [], ⟨[], [], []⟩, [], none, 1, 0, 1⟩
        ⟨"", false, 0⟩).success = false
    ∧ (fuse default_weights get_default_rules ⟨none, none, 0, []⟩
        ⟨"I want violence", [⟨"violence", "violence"⟩], [], ⟨[], [], []⟩, [], none, 1, 0, 1⟩
        ⟨"", false, 0⟩).coherence = 0 :=
  fuse_rejects_noncompliant _ _ _ _ _ (by decide)

/-- C5 (as stated, the root-match and short-lemma behaviour): lemma
"manipulate" against prohibited "manipulation" (and vice versa) yields a
`prohibited_concept_lemma` violation through the root-match rule; lemma
"cat" against prohibited "category" yields none; and a concept whose
lemma is shorter than 3 characters never yields a violation. -/
theorem root_match_behaviour :
    (check_compliance_enhanced "" [⟨"manipulate", "manipulate"⟩] [] ⟨[], [], []⟩ none
        (some ⟨["manipulation"], [], none⟩)).violations =
      [ .prohibited_concept_lemma ("manipulate") ("manipulate") ("manipulation")]
    ∧ (check_compliance_enhanced "" [⟨"manipulation", "manipulation"⟩] [] ⟨[], [], []⟩ none
        (some ⟨["manipulate"], [], none⟩)).violations =
      [ .prohibited_concept_lemma ("manipulation") ("manipulation") ("manipulate")]
    ∧ (check_compliance_enhanced "" [⟨"cat", "cat"⟩] [] ⟨[], [], []⟩ none
        (some ⟨["category"], [], none⟩)).violations = []
    ∧ ∀ (c : Concept) (prohibited_concepts : List String), pyLen c.lemma_ < 3 →
        concept_violations_for c prohibited_concepts = [] := by
  refine ⟨by decide, by decide, by decide, ?_⟩
  intro c prohibited_concepts h
  have h2 : pyLen (pyLower c.lemma_) < 3 := by simpa [pyLen, pyLower] using h
  simp [concept_violations_for, h2]

/-- Witness for C5 at a concrete one-character lemma. -/
theorem root_match_behaviour_witness :
    concept_violations_for ⟨"I", "I"⟩ ["violence"] = [] :=
  root_match_behaviour.2.2.2 ⟨"I", "I"⟩ ["violence"] (by decide)

/-- Counterexample to C3 as stated: starting from the default weights,
feedback `{chroma: 100, prismo: -100, anchor: -100}` clips the weights
to `(0.6, 0.1, 0.1)` and renormalization then yields a chroma weight of
`0.75`, outside `[0.1, 0.6]`. -/
theorem update_weights_escapes_range :
    (update_weights default_weights ⟨some 100, some (-100), some (-100)⟩).chroma = 3/4
    ∧ ¬ ((update_weights default_weights
            ⟨some 100, some (-100), some (-100)⟩).chroma ≤ 3/5) := by
  constructor <;> norm_num [update_weights, step_weight, np_clip, default_weights]

/-- Helper bound: if `x ∈ [0.1, 0.6]` and the renormalization total `t`
exceeds `x` by between `0.2` and `1.2` (the other two clipped weights),
then `x / t ∈ [1/13, 3/4]`. -/
theorem clipped_ratio_bounds (x t : ℚ) (hx1 : 0.1 ≤ x) (hx2 : x ≤ 0.6)
    (ht1 : x + 0.2 ≤ t) (ht2 : t ≤ x + 1.2) : 1/13 ≤ x / t ∧ x / t ≤ 3/4 := by
  have ht : 0 < t := by linarith
  constructor
  · rw [le_div_iff₀ ht]; linarith
  · rw [div_le_iff₀ ht]; linarith

/-- Bounds of `np_clip`. -/
theorem np_clip_bounds {α : Type} [LinearOrder α] (x lo hi : α) (h : lo ≤ hi) :
    lo ≤ np_clip x lo hi ∧ np_clip x lo hi ≤ hi :=
  ⟨le_min (le_max_right _ _) h, min_le_right _ _⟩

/-- C3 (amended): after `update_weights` the three weights always sum
to 1 (whenever the clipped total is positive, which holds in particular
when the starting weights are positive), and the clamp to `[0.1, 0.6]`
happens before renormalization, so when every source receives feedback
each final weight lies in `[1/13, 3/4]` (not `[0.1, 0.6]`). -/
theorem update_weights_sum_one_and_bounds :
    (∀ (w : Weights) (fb : Feedback),
      0 < step_weight w.chroma fb.chroma + step_weight w.prismo fb.prismo +
          step_weight w.anchor fb.anchor →
      (update_weights w fb).chroma + (update_weights w fb).prismo +
        (update_weights w fb).anchor = 1)
    ∧ (∀ (w : Weights) (dc dp da : ℚ),
      (1/13 ≤ (update_weights w ⟨some dc, some dp, some da⟩).chroma ∧
        (update_weights w ⟨some dc, some dp, some da⟩).chroma ≤ 3/4) ∧
      (1/13 ≤ (update_weights w ⟨some dc, some dp, some da⟩).prismo ∧
        (update_weights w ⟨some dc, some dp, some da⟩).prismo ≤ 3/4) ∧
      (1/13 ≤ (update_weights w ⟨some dc, some dp, some da⟩).anchor ∧
        (update_weights w ⟨some dc, some dp, some da⟩).anchor ≤ 3/4)) := by
  constructor
  · intro w fb h
    show step_weight w.chroma fb.chroma /
        (step_weight w.chroma fb.chroma + step_weight w.prismo fb.prismo +
          step_weight w.anchor fb.anchor) + _ / _ + _ / _ = 1
    rw [div_add_div_same, div_add_div_same, div_self (ne_of_gt h)]
  · intro w dc dp da
    dsimp only [update_weights, step_weight]
    have hc := np_clip_bounds (w.chroma + dc * 0.05) (0.1 : ℚ) 0.6 (by norm_num)
    have hp := np_clip_bounds (w.prismo + dp * 0.05) (0.1 : ℚ) 0.6 (by norm_num)
    have ha := np_clip_bounds (w.anchor + da * 0.05) (0.1 : ℚ) 0.6 (by norm_num)
    exact ⟨clipped_ratio_bounds _ _ hc.1 hc.2 (by linarith [hp.1, ha.1])
        (by linarith [hp.2, ha.2]),
      clipped_ratio_bounds _ _ hp.1 hp.2 (by linarith [hc.1, ha.1])
        (by linarith [hc.2, ha.2]),
      clipped_ratio_bounds _ _ ha.1 ha.2 (by linarith [hc.1, hp.1])
        (by linarith [hc.2, hp.2])⟩

/-- Witness for C3 (amended) at the default weights. -/
theorem update_weights_sum_one_and_bounds_witness :
    ((update_weights default_weights ⟨none, none, none⟩).chroma +
      (update_weights default_weights ⟨none, none, none⟩).prismo +
      (update_weights default_weights ⟨none, none, none⟩).anchor = 1)
    ∧ (1/13 ≤ (update_weights default_weights ⟨some 0, some 0, some 0⟩).chroma ∧
        (update_weights default_weights ⟨some 0, some 0, some 0⟩).chroma ≤ 3/4) :=
  ⟨update_weights_sum_one_and_bounds.1 default_weights ⟨none, none, none⟩
      (by norm_num [step_weight, default_weights]),
    (update_weights_sum_one_and_bounds.2 default_weights 0 0 0).1⟩

/-- Looking a key up after appending a binding for it to a list in which
it was absent finds the appended binding. -/
theorem lookup_append_single {β : Type} (l : List (String × β)) (k : String) (v : β)
    (h : l.lookup k = none) : (l ++ [(k, v)]).lookup k = some v := by
  induction l with
  | nil => simp [List.lookup]
  | cons p t ih =>
    rw [List.cons_append]
    cases hkb : (k == p.1) with
    | true => simp [List.lookup, hkb] at h
    | false =>
      simp only [List.lookup, hkb] at h ⊢
      exact ih h

/-- Unfolding of `Soul.get_or_create` for an absent user id. -/
theorem get_or_create_absent (souls : SoulState) (user_id : String) (rand : Vec7)
    (now : String) (h : souls.lookup user_id = none) :
    Soul.get_or_create souls user_id rand now =
      ({ user_id := user_id, vector := rand, alignment_score := 0.5, interaction_count := 0
         preferences := [], created_at := now, last_updated := now },
       souls ++ [(user_id,
         { user_id := user_id, vector := rand, alignment_score := 0.5, interaction_count := 0
           preferences := [], created_at := now, last_updated := now })]) := by
  simp [Soul.get_or_create, h]

/-- C4 (amended): `get_or_create` for a previously-unseen user creates a
soul whose 7-dimensional vector is the raw `np.random.random(7)` sample
(components in `[0, 1)`, in general NOT unit-norm), with
`alignment_score` 0.5 and `interaction_count` 0. -/
theorem get_or_create_initial_record (souls : SoulState) (user_id : String) (rand : Vec7)
    (now : String) (h : souls.lookup user_id = none) :
    (Soul.get_or_create souls user_id rand now).1.vector = rand
    ∧ (Soul.get_or_create souls user_id rand now).1.alignment_score = 0.5
    ∧ (Soul.get_or_create souls user_id rand now).1.interaction_count = 0 := by
  rw [get_or_create_absent souls user_id rand now h]
  exact ⟨rfl, rfl, rfl⟩

/-- Witness for C4 (amended) on the empty soul store. -/
theorem get_or_create_initial_record_witness :
    (Soul.get_or_create [] "u" (fun _ => (1/2 : ℝ)) "t").1.vector = (fun _ => (1/2 : ℝ))
    ∧ (Soul.get_or_create [] "u" (fun _ => (1/2 : ℝ)) "t").1.alignment_score = 0.5
    ∧ (Soul.get_or_create [] "u" (fun _ => (1/2 : ℝ)) "t").1.interaction_count = 0 :=
  get_or_create_initial_record [] "u" (fun _ => (1/2 : ℝ)) "t" rfl

/-- Counterexample to C4 as stated: the vector created for a fresh user
is the raw random draw — for the (legal) draw with all seven components
`1/2` the created vector has Euclidean norm `√(7/4) ≠ 1`, so it is not
unit-norm. -/
theorem get_or_create_unit_norm_cex :
    (Soul.get_or_create [] "u" (fun _ => (1/2 : ℝ)) "t").1.vector = (fun _ => (1/2 : ℝ))
    ∧ euclid_norm (fun _ : Fin 7 => (1/2 : ℝ)) ≠ 1 := by
  refine ⟨rfl, ?_⟩
  have hsum : (∑ _i : Fin 7, ((1:ℝ)/2) ^ 2) = 7/4 := by
    rw [Finset.sum_const, Finset.card_univ, Fintype.card_fin, nsmul_eq_mul]
    norm_num
  have h74 : euclid_norm (fun _ : Fin 7 => (1/2 : ℝ)) = Real.sqrt (7/4) := by
    rw [euclid_norm]
    congr 1
  intro h1
  rw [h74, Real.sqrt_eq_one] at h1
  norm_num at h1

/-- C8: calling `get_or_create` twice with the same new user id returns
the same record and the same state on the second call — no duplicate
soul is created (whatever the second random draw and timestamp are) and
the record, in particular its `interaction_count`, is unchanged. -/
theorem get_or_create_idempotent (souls : SoulState) (user_id : String)
    (rand1 rand2 : Vec7) (now1 now2 : String) (h : souls.lookup user_id = none) :
    Soul.get_or_create (Soul.get_or_create souls user_id rand1 now1).2 user_id rand2 now2 =
      Soul.get_or_create souls user_id rand1 now1
    ∧ (Soul.get_or_create souls user_id rand1 now1).1.interaction_count = 0 := by
  rw [get_or_create_absent souls user_id rand1 now1 h]
  refine ⟨?_, rfl⟩
  rw [Soul.get_or_create, lookup_append_single souls user_id _ h]

/-- Witness for C8 on the empty soul store. -/
theorem get_or_create_idempotent_witness :
    Soul.get_or_create
        (Soul.get_or_create [] "u" (fun _ => (1/2 : ℝ)) "t1").2 "u" (fun _ => (1/4 : ℝ)) "t2" =
      Soul.get_or_create [] "u" (fun _ => (1/2 : ℝ)) "t1"
    ∧ (Soul.get_or_create [] "u" (fun _ => (1/2 : ℝ)) "t1").1.interaction_count = 0 :=
  get_or_create_idempotent [] "u" (fun _ => (1/2 : ℝ)) (fun _ => (1/4 : ℝ)) "t1" "t2" rfl

/-- Dividing a vector by its nonzero Euclidean norm yields a unit-norm
vector. -/
theorem euclid_norm_div_norm {n : Nat} (w : Fin n → ℝ) (h : euclid_norm w ≠ 0) :
    euclid_norm (fun i => w i / euclid_norm w) = 1 := by
  have hS : (0:ℝ) ≤ ∑ i, w i ^ 2 := Finset.sum_nonneg fun i _ => sq_nonneg _
  have hS0 : (∑ i, w i ^ 2) ≠ 0 := fun h0 => h (by rw [euclid_norm, h0, Real.sqrt_zero])
  have hnorm2 : euclid_norm w ^ 2 = ∑ i, w i ^ 2 := by
    rw [euclid_norm]; exact Real.sq_sqrt hS
  rw [euclid_norm]
  simp only [div_pow, hnorm2]
  rw [← Finset.sum_div, div_self hS0, Real.sqrt_one]

/-- C6: for an existing soul record `s` and any coherence and chroma
vector whose EMA result `0.9·old + 0.1·new` has non-zero norm,
`Soul.update` stores exactly the normalized EMA vector (hence a
unit-norm vector), the clipped EMA alignment score
`clip(0.9·old + 0.1·coherence, 0, 1)`, and increments the interaction
count by exactly 1. -/
theorem soul_update_ema (souls : SoulState) (user_id : String) (s : SoulRecord)
    (chroma_vector : Vec7) (coherence : ℝ) (rand : Vec7) (now : String)
    (hs : souls.lookup user_id = some s)
    (hnz : euclid_norm (fun i => 0.9 * s.vector i + 0.1 * chroma_vector i) ≠ 0) :
    (Soul.update souls user_id chroma_vector coherence rand now).1.vector =
      (fun i => (0.9 * s.vector i + 0.1 * chroma_vector i) /
        euclid_norm (fun j => 0.9 * s.vector j + 0.1 * chroma_vector j))
    ∧ euclid_norm (Soul.update souls user_id chroma_vector coherence rand now).1.vector = 1
    ∧ (Soul.update souls user_id chroma_vector coherence rand now).1.alignment_score =
        np_clip (0.9 * s.alignment_score + 0.1 * coherence) 0 1
    ∧ (Soul.update souls user_id chroma_vector coherence rand now).1.interaction_count =
        s.interaction_count + 1 := by
  have hget : Soul.get_or_create souls user_id rand now = (s, souls) := by
    rw [Soul.get_or_create, hs]
  have hv : (Soul.update souls user_id chroma_vector coherence rand now).1.vector =
      (fun i => (0.9 * s.vector i + 0.1 * chroma_vector i) /
        euclid_norm (fun j => 0.9 * s.vector j + 0.1 * chroma_vector j)) := by
    rw [Soul.update, hget]
  refine ⟨hv, ?_, ?_, ?_⟩
  · rw [hv]
    exact euclid_norm_div_norm _ hnz
  · rw [Soul.update, hget]
  · rw [Soul.update, hget]

/-- Witness for C6 at a concrete one-record store. -/
theorem soul_update_ema_witness :
    (Soul.update [("u", ⟨"u", fun _ => 1, 0.5, 0, [], "t", "t"⟩)] "u" (fun _ => 1) (1/2)
        (fun _ => 0) "t2").1.vector =
      (fun _ => (0.9 * (1:ℝ) + 0.1 * 1) /
        euclid_norm (fun _ : Fin 7 => 0.9 * (1:ℝ) + 0.1 * 1))
    ∧ euclid_norm (Soul.update [("u", ⟨"u", fun _ => 1, 0.5, 0, [], "t", "t"⟩)] "u"
        (fun _ => 1) (1/2) (fun _ => 0) "t2").1.vector = 1
    ∧ (Soul.update [("u", ⟨"u", fun _ => 1, 0.5, 0, [], "t", "t"⟩)] "u" (fun _ => 1) (1/2)
        (fun _ => 0) "t2").1.alignment_score = np_clip (0.9 * (0.5:ℝ) + 0.1 * (1/2)) 0 1
    ∧ (Soul.update [("u", ⟨"u", fun _ => 1, 0.5, 0, [], "t", "t"⟩)] "u" (fun _ => 1) (1/2)
        (fun _ => 0) "t2").1.interaction_count = 0 + 1 :=
  soul_update_ema [("u", ⟨"u", fun _ => 1, 0.5, 0, [], "t", "t"⟩)] "u"
    ⟨"u", fun _ => 1, 0.5, 0, [], "t", "t"⟩ (fun _ => 1) (1/2) (fun _ => 0) "t2" rfl
    (by
      rw [euclid_norm, Real.sqrt_ne_zero']
      have : ∀ _i : Fin 7, ((0.9:ℝ) * 1 + 0.1 * 1) ^ 2 = 1 := by intro _; norm_num
      simp only [this]
      rw [Finset.sum_const, Finset.card_univ, Fintype.card_fin, nsmul_eq_mul]
      norm_num)

/-- A vector's non-negative Euclidean norm. -/
theorem euclid_norm_nonneg {n : Nat} (v : Fin n → ℝ) : 0 ≤ euclid_norm v :=
  Real.sqrt_nonneg _

/-- Cosine similarity is bounded by 1 (Cauchy–Schwarz; for a degenerate
zero-norm operand the embedded total division yields 0). -/
theorem cosine_similarity_le_one {n : Nat} (q w : Fin n → ℝ) :
    cosine_similarity q w ≤ 1 := by
  rw [cosine_similarity]
  rcases le_or_lt (euclid_norm q * euclid_norm w) 0 with hD | hD
  · have hD0 : euclid_norm q * euclid_norm w = 0 :=
      le_antisymm hD (mul_nonneg (euclid_norm_nonneg q) (euclid_norm_nonneg w))
    rw [hD0, div_zero]
    norm_num
  · rw [div_le_one hD]
    have hq : (0:ℝ) ≤ ∑ i, q i ^ 2 := Finset.sum_nonneg fun i _ => sq_nonneg _
    calc ∑ i, q i * w i ≤ |∑ i, q i * w i| := le_abs_self _
      _ = Real.sqrt ((∑ i, q i * w i) ^ 2) := (Real.sqrt_sq_eq_abs _).symm
      _ ≤ Real.sqrt ((∑ i, q i ^ 2) * ∑ i, w i ^ 2) :=
          Real.sqrt_le_sqrt (Finset.sum_mul_sq_le_sq_mul_sq Finset.univ q w)
      _ = euclid_norm q * euclid_norm w := by
          rw [euclid_norm, euclid_norm, ← Real.sqrt_mul hq]

/-- Cosine similarity of a non-degenerate vector with itself is exactly 1. -/
theorem cosine_similarity_self {n : Nat} (v : Fin n → ℝ) (hv : (∑ i, v i ^ 2) ≠ 0) :
    cosine_similarity v v = 1 := by
  have hS : (0:ℝ) ≤ ∑ i, v i ^ 2 := Finset.sum_nonneg fun i _ => sq_nonneg _
  have hnum : (∑ i, v i * v i) = ∑ i, v i ^ 2 :=
    Finset.sum_congr rfl fun i _ => (pow_two (v i)).symm
  rw [cosine_similarity, euclid_norm, Real.mul_self_sqrt hS, hnum, div_self hv]

/-- Replacing the binding of a present key makes lookup return the new
value. -/
theorem lookup_assoc_set_self {β : Type} (l : List (String × β)) (k : String) (v : β)
    (h : (l.lookup k).isSome) : (assoc_set l k v).lookup k = some v := by
  induction l with
  | nil => simp [List.lookup] at h
  | cons p t ih =>
    rw [assoc_set, List.map_cons]
    cases hkb : (p.1 == k) with
    | true => simp [hkb, List.lookup]
    | false =>
      have hk : (k == p.1) = false := by
        rw [beq_eq_false_iff_ne] at hkb ⊢
        exact fun e => hkb e.symm
      simp only [List.lookup, hk] at h
      simp only [hkb, Bool.false_eq_true, if_false, List.lookup, hk]
      exact ih h

/-- The new binding is a member of the replaced association list. -/
theorem mem_assoc_set_self {β : Type} (l : List (String × β)) (k : String) (v : β)
    (h : (l.lookup k).isSome) : (k, v) ∈ assoc_set l k v := by
  induction l with
  | nil => simp [List.lookup] at h
  | cons p t ih =>
    rw [assoc_set, List.map_cons]
    cases hkb : (p.1 == k) with
    | true => simp [hkb]
    | false =>
      have hk : (k == p.1) = false := by
        rw [beq_eq_false_iff_ne] at hkb ⊢
        exact fun e => hkb e.symm
      simp only [List.lookup, hk] at h
      simp only [hkb, Bool.false_eq_true, if_false]
      exact List.mem_cons_of_mem _ (ih h)

/-- `dict_set` always makes lookup return the new value. -/
theorem lookup_dict_set {β : Type} (l : List (String × β)) (k : String) (v : β) :
    (dict_set l k v).lookup k = some v := by
  rw [dict_set]
  by_cases hs : (l.lookup k).isSome
  · rw [if_pos hs]
    exact lookup_assoc_set_self l k v hs
  · rw [if_neg hs]
    exact lookup_append_single l k v (Option.not_isSome_iff_eq_none.mp hs)

/-- `dict_set` always makes the new binding a member. -/
theorem mem_dict_set {β : Type} (l : List (String × β)) (k : String) (v : β) :
    (k, v) ∈ dict_set l k v := by
  rw [dict_set]
  by_cases hs : (l.lookup k).isSome
  · rw [if_pos hs]
    exact mem_assoc_set_self l k v hs
  · rw [if_neg hs]
    exact List.mem_append_right _ (List.mem_singleton.mpr rfl)

/-- A search result list is always sorted by descending similarity. -/
theorem search_sorted {n : Nat} {M : Type} [Inhabited M] (s : VectorStoreState n M)
    (q : Fin n → ℝ) (k : Nat) :
    List.Sorted hit_ge (SimpleVectorStore.search s q k) := by
  rw [SimpleVectorStore.search]
  by_cases h0 : s.vectors.length = 0
  · rw [if_pos h0]
    exact List.sorted_nil
  · rw [if_neg h0]
    exact List.Pairwise.sublist (List.take_sublist _ _)
      (List.sorted_insertionSort hit_ge _)

/-- Every similarity in a search result is at most 1. -/
theorem search_sim_le_one {n : Nat} {M : Type} [Inhabited M] (s : VectorStoreState n M)
    (q : Fin n → ℝ) (k : Nat) (hit : SearchHit M)
    (hmem : hit ∈ SimpleVectorStore.search s q k) : hit.similarity ≤ 1 := by
  rw [SimpleVectorStore.search] at hmem
  by_cases h0 : s.vectors.length = 0
  · rw [if_pos h0] at hmem
    simp at hmem
  · rw [if_neg h0] at hmem
    have hmem2 := List.mem_of_mem_take hmem
    have hmem3 := (List.perm_insertionSort hit_ge _).mem_iff.mp hmem2
    obtain ⟨p, _, rfl⟩ := List.mem_map.mp hmem3
    exact cosine_similarity_le_one q p.2

/-- C9: after `upsert(id, v, m)`, `get(id)` returns a record with the
same id, vector and metadata; and for a non-degenerate `v`, searching
with the identical query vector yields a list sorted by descending
cosine similarity in which every similarity is ≤ 1 and which (whenever
`k` covers the store) contains the entry for `id` with similarity
exactly 1 — i.e. the upserted id sits at or near the top, tied only
with other similarity-1 entries. -/
theorem vector_store_round_trip {n : Nat} {M : Type} [Inhabited M]
    (s : VectorStoreState n M) (id : String) (v : Fin n → ℝ) (m : M) (k : Nat)
    (hv : (∑ i, v i ^ 2) ≠ 0) :
    SimpleVectorStore.get (SimpleVectorStore.upsert s id v m) id =
      some { id := id, vector := v, metadata := m }
    ∧ List.Sorted hit_ge (SimpleVectorStore.search (SimpleVectorStore.upsert s id v m) v k)
    ∧ (∀ hit ∈ SimpleVectorStore.search (SimpleVectorStore.upsert s id v m) v k,
        hit.similarity ≤ 1)
    ∧ (SimpleVectorStore.count (SimpleVectorStore.upsert s id v m) ≤ k →
        ({ id := id, similarity := 1, metadata := m } : SearchHit M) ∈
          SimpleVectorStore.search (SimpleVectorStore.upsert s id v m) v k) := by
  have h1 : (SimpleVectorStore.upsert s id v m).vectors.lookup id = some v :=
    lookup_dict_set s.vectors id v
  have h2 : (SimpleVectorStore.upsert s id v m).metadata.lookup id = some m :=
    lookup_dict_set s.metadata id m
  refine ⟨?_, search_sorted _ _ _, fun hit hmem => search_sim_le_one _ _ _ hit hmem, ?_⟩
  · rw [SimpleVectorStore.get, h1, h2]
    rfl
  · intro hk
    have hmemv : (id, v) ∈ (SimpleVectorStore.upsert s id v m).vectors :=
      mem_dict_set s.vectors id v
    have hlen0 : ¬ (SimpleVectorStore.upsert s id v m).vectors.length = 0 := by
      intro h0
      rw [List.length_eq_zero] at h0
      rw [h0] at hmemv
      simp at hmemv
    rw [SimpleVectorStore.search, if_neg hlen0]
    have hmap : ({ id := id, similarity := 1, metadata := m } : SearchHit M) ∈
        (SimpleVectorStore.upsert s id v m).vectors.map (fun p =>
          ({ id := p.1, similarity := cosine_similarity v p.2
             metadata :=
               ((SimpleVectorStore.upsert s id v m).metadata.lookup p.1).getD default } :
            SearchHit M)) := by
      refine List.mem_map.mpr ⟨(id, v), hmemv, ?_⟩
      dsimp only
      rw [cosine_similarity_self v hv, h2]
      rfl
    have hlen : (List.insertionSort hit_ge
        ((SimpleVectorStore.upsert s id v m).vectors.map (fun p =>
          ({ id := p.1, similarity := cosine_similarity v p.2
             metadata :=
               ((SimpleVectorStore.upsert s id v m).metadata.lookup p.1).getD default } :
            SearchHit M)))).length ≤ k := by
      rw [(List.perm_insertionSort hit_ge _).length_eq, List.length_map]
      exact hk
    rw [List.take_of_length_le hlen]
    exact ((List.perm_insertionSort hit_ge _).mem_iff).mpr hmap

/-- Witness for C9: a fresh one-vector store in dimension 1. -/
theorem vector_store_round_trip_witness :
    SimpleVectorStore.get
        (SimpleVectorStore.upsert (⟨[], []⟩ : VectorStoreState 1 Nat) "a" (fun _ => 1) 5) "a" =
      some { id := "a", vector := fun _ => 1, metadata := 5 }
    ∧ List.Sorted hit_ge (SimpleVectorStore.search
        (SimpleVectorStore.upsert (⟨[], []⟩ : VectorStoreState 1 Nat) "a" (fun _ => 1) 5)
        (fun _ => 1) 1)
    ∧ (∀ hit ∈ SimpleVectorStore.search
        (SimpleVectorStore.upsert (⟨[], []⟩ : VectorStoreState 1 Nat) "a" (fun _ => 1) 5)
        (fun _ => 1) 1, hit.similarity ≤ 1)
    ∧ (SimpleVectorStore.count
        (SimpleVectorStore.upsert (⟨[], []⟩ : VectorStoreState 1 Nat) "a" (fun _ => 1) 5) ≤ 1 →
        ({ id := "a", similarity := 1, metadata := 5 } : SearchHit Nat) ∈
          SimpleVectorStore.search
            (SimpleVectorStore.upsert (⟨[], []⟩ : VectorStoreState 1 Nat) "a" (fun _ => 1) 5)
            (fun _ => 1) 1) :=
  vector_store_round_trip ⟨[], []⟩ "a" (fun _ => 1) 5 1 (by simp)

end DD
